import Mathlib

/-!
Verification of the agent-orchestration layer of the Hackathon2025 repository.

The Python sources are shallowly embedded as executable Lean definitions:

* `backend/supervisor-agent/agent_registry.py`   → `loadConfig`, `routeQuery`, …
* `backend/supervisor-agent/a2a_protocol.py`     → `TaskRequest`, `TaskResponse`, `AgentMessage`
* `backend/supervisor-agent/supervisor_agent.py` → `routeAndExecute`, `collateResponses`,
  `handleTaskRequest`, `queryConversationUpdate`
* `backend/git-mcp-agent/mcp_client.py`          → `mcpHandshake`, `mcpCallTool`
* `backend/git-mcp-agent/agent.py`               → `executeOne`, `executeTools`, `getCacheKey`,
  `cacheStore`

Conventions of the embedding:

* Python dictionaries are association lists in insertion order (`pyLookup`, `pyDictSet`),
  matching CPython's order-preserving `dict`.
* JSON-serializable Python values are the inductive `JVal`.
* `async` delegation whose results are gathered with `return_exceptions=True` is modeled by
  passing delegate outcomes as `Except` values: a raised exception is `.error`, a returned
  string is `.ok`.  Network transports are explicit function parameters, and every function
  that performs I/O also returns the list of requests it issued, so "no network call" is the
  statement that this list is empty.
-/

/-- JSON-representable Python values (`Any` arguments, message contents, RPC bodies). -/
inductive JVal where
  | null
  | bool (b : Bool)
  | num (n : Int)
  | str (s : String)
  | arr (elems : List JVal)
  | obj (fields : List (String × JVal))

/-- Python `dict` lookup on an insertion-ordered association list. -/
def pyLookup {A : Type} : List (String × A) → String → Option A
  | [], _ => none
  | (k, v) :: rest, key => if k = key then some v else pyLookup rest key

/-- Python `d[k] = v`: update in place if the key exists (keeping its position),
otherwise append at the end, exactly as CPython's insertion-ordered `dict`. -/
def pyDictSet {A : Type} : List (String × A) → String → A → List (String × A)
  | [], key, v => [(key, v)]
  | (k, w) :: rest, key, v =>
    if k = key then (k, v) :: rest else (k, w) :: pyDictSet rest key v

/-- Python `str.lower()` (character-wise lowercasing; the queries routed by the
source are ASCII, where `Char.toLower` agrees with Python). -/
def pyLower (s : String) : String := String.mk (s.toList.map Char.toLower)

/-- Python `needle in haystack` on strings: literal substring test. -/
def pyIn (needle hay : String) : Bool := decide (needle.toList <:+: hay.toList)

/-- Python `a or b` on optional strings: `None` and `""` are falsy. -/
def pyOr (a b : Option String) : Option String :=
  match a with
  | none => b
  | some s => if s.isEmpty then b else some s

/-- Python truthiness of an optional string (`None` and `""` are falsy). -/
def pyTruthyStr : Option String → Bool
  | none => false
  | some s => !s.isEmpty

/-- Python `d.get(k)` on a JSON object; `None`-like for non-objects. -/
def jGet (v : JVal) (k : String) : Option JVal :=
  match v with
  | .obj fields => pyLookup fields k
  | _ => none

/-- Key order used by `json.dumps(..., sort_keys=True)`: compare field names. -/
def keyLe (a b : String × JVal) : Prop := a.1 ≤ b.1

instance : DecidableRel keyLe := fun a b => (inferInstance : Decidable (a.1 ≤ b.1))

instance : IsTotal (String × JVal) keyLe := ⟨fun a b => le_total a.1 b.1⟩

instance : IsTrans (String × JVal) keyLe := ⟨fun _ _ _ h1 h2 => le_trans h1 h2⟩

/-- The key-sorting pass of `json.dumps(..., sort_keys=True)` on one object. -/
def sortPairs (fields : List (String × JVal)) : List (String × JVal) :=
  List.insertionSort keyLe fields

mutual

/-- `json.dumps(value, sort_keys=True)`: canonical serialization with every object's
fields emitted in sorted key order (string escaping is not modeled; the cache keys in
the source are built from plain identifier-like strings). -/
def JVal.dumps : JVal → String
  | .null => "null"
  | .bool b => if b then "true" else "false"
  | .num n => toString n
  | .str s => "\"" ++ s ++ "\""
  | .arr es => "[" ++ dumpsArr es ++ "]"
  | .obj fields => "\x7b" ++ dumpsObj (sortPairs fields) ++ "\x7d"
termination_by v => sizeOf v
decreasing_by
  all_goals simp_wf
  all_goals
    (have key : ∀ (l1 l2 : List (String × JVal)), l1.Perm l2 → sizeOf l1 = sizeOf l2 := by
      intro l1 l2 h
      induction h with
      | nil => rfl
      | cons x _ ih => simp only [List.cons.sizeOf_spec]; omega
      | swap x y l => simp only [List.cons.sizeOf_spec]; omega
      | trans _ _ ih1 ih2 => omega
     have hs := key _ _ (List.perm_insertionSort keyLe fields)
     simp only [sortPairs] at *
     omega)

/-- Serializes the elements of a JSON array, comma separated. -/
def dumpsArr : List JVal → String
  | [] => ""
  | [e] => JVal.dumps e
  | e :: rest => JVal.dumps e ++ ", " ++ dumpsArr rest
termination_by l => sizeOf l
decreasing_by
  all_goals simp_wf
  all_goals omega

/-- Serializes already-sorted object fields, comma separated. -/
def dumpsObj : List (String × JVal) → String
  | [] => ""
  | [(k, v)] => "\"" ++ k ++ "\": " ++ JVal.dumps v
  | (k, v) :: rest => "\"" ++ k ++ "\": " ++ JVal.dumps v ++ ", " ++ dumpsObj rest
termination_by l => sizeOf l
decreasing_by
  all_goals simp_wf
  all_goals omega

end

/-- `hashlib.md5(key_data.encode()).hexdigest()` from `GitHubAgent._get_cache_key`.
The digest is modeled as the serialized key text itself: every cache property proved
here (key determinism, canonical-order key equality, round trips through the table)
depends only on the digest being a function of its input string, and is preserved by
composing with any concrete digest function. -/
def md5Hex (s : String) : String := s

/-- `GitHubAgent._get_cache_key` (agent.py lines 327-331):
`md5(f"{tool_name}:{json.dumps(arguments, sort_keys=True)}")`. -/
def getCacheKey (toolName : String) (args : List (String × JVal)) : String :=
  md5Hex (toolName ++ ":" ++ JVal.dumps (JVal.obj args))

/-- The cache store-and-evict step of `GitHubAgent.execute_tools` (agent.py lines
214-220): insert under `key`, then if the entry count exceeds 50, delete the 10
entries that are oldest in insertion order, in one batch. -/
def cacheStore {A : Type} (c : List (String × A)) (key : String) (v : A) : List (String × A) :=
  let c1 := pyDictSet c key v
  if c1.length > 50 then c1.drop 10 else c1

/-- Cache write at the `(operation, arguments)` level, as `execute_tools` performs it. -/
def cachePut {A : Type} (c : List (String × A)) (op : String)
    (args : List (String × JVal)) (v : A) : List (String × A) :=
  cacheStore c (getCacheKey op args) v

/-- Cache read at the `(operation, arguments)` level (agent.py lines 179-181). -/
def cacheGet {A : Type} (c : List (String × A)) (op : String)
    (args : List (String × JVal)) : Option A :=
  pyLookup c (getCacheKey op args)

/-! ## Capability registry (`agent_registry.py`) -/

/-- One entry of the `routing_rules` list in `agents.yaml`; every field is optional
because `AgentRegistry.route_query` reads each one with `rule.get(...)`. -/
structure RoutingRule where
  keywords : Option (List String) := none
  agent : Option String := none
  priority : Option Nat := none

/-- One agent entry of `agents.yaml`; only the `id` field participates in the
behavior covered here (`get_agent_config` falls back to matching `config.get('id')`). -/
structure AgentConfig where
  id : Option String := none

/-- The mutable state of `AgentRegistry` after `__init__`/`load_config`. -/
structure Registry where
  agents : List (String × AgentConfig) := []
  routing_rules : List RoutingRule := []
  default_agent : Option String := none

/-- The raw mapping produced by `yaml.safe_load` when parsing succeeds;
optional fields model `config.get(key, default)`. -/
structure RawConfig where
  agents : Option (List (String × AgentConfig)) := none
  routing_rules : Option (List RoutingRule) := none
  default_agent : Option String := none

/-- The configuration source seen by `AgentRegistry.load_config`: the file can be
absent, unreadable/malformed (any exception inside the `try` block), or parsed. -/
inductive ConfigSource where
  | missing
  | malformed
  | parsed (cfg : RawConfig)

/-- The `yaml.safe_load` + attribute access step: any exception is `.error`. -/
def parseYaml : ConfigSource → Except String RawConfig
  | .missing => .error "unreachable: guarded by os.path.exists"
  | .malformed => .error "yaml parse failure"
  | .parsed cfg => .ok cfg

/-- `AgentRegistry.load_config` (agent_registry.py lines 16-34), starting from the
`__init__` field values (`agents = {}`, `routing_rules = []`, `default_agent = None`):
a missing file returns early, an exception resets `agents`/`routing_rules`, and only a
successful parse assigns `default_agent` (with the inline default `'github-agent'`). -/
def loadConfig (src : ConfigSource) : Registry :=
  let init : Registry := {}
  match src with
  | .missing => init
  | _ =>
    match parseYaml src with
    | .error _ => { init with agents := [], routing_rules := [] }
    | .ok cfg =>
      { agents := cfg.agents.getD [],
        routing_rules := cfg.routing_rules.getD [],
        default_agent := some (cfg.default_agent.getD "github-agent") }

/-- The id-matching fallback loop of `AgentRegistry.get_agent_config`. -/
def findById : List (String × AgentConfig) → String → Option AgentConfig
  | [], _ => none
  | (_, cfg) :: rest, key => if cfg.id = some key then some cfg else findById rest key

/-- `AgentRegistry.get_agent_config`: lookup by key first, then by descriptor id. -/
def getAgentConfig (reg : Registry) (key : String) : Option AgentConfig :=
  match pyLookup reg.agents key with
  | some cfg => some cfg
  | none => findById reg.agents key

/-- `AgentRegistry.is_agent_available`. -/
def isAgentAvailable (reg : Registry) (key : String) : Bool :=
  (getAgentConfig reg key).isSome

/-- Comparison against `highest_priority`, initially `float('inf')` (`none`). -/
def ltInfty (p : Nat) : Option Nat → Bool
  | none => true
  | some q => p < q

/-- One iteration of the `for rule in self.routing_rules` loop of
`AgentRegistry.route_query`: a rule whose keywords hit the lower-cased query replaces
the best match only when its priority is strictly smaller. -/
def routeStep (ql : String) (acc : Option String × Option Nat) (r : RoutingRule) :
    Option String × Option Nat :=
  let keywords := r.keywords.getD []
  let priority := r.priority.getD 999
  if keywords.any (fun kw => pyIn kw ql) then
    if ltInfty priority acc.2 then (r.agent, some priority) else acc
  else acc

/-- `AgentRegistry.route_query` (agent_registry.py lines 52-67): lower-case the query,
scan all rules keeping the strictly-smallest-priority match, and finish with
`best_match or self.default_agent`. -/
def routeQuery (reg : Registry) (q : String) : Option String :=
  let ql := pyLower q
  let best := reg.routing_rules.foldl (routeStep ql) (none, none)
  pyOr best.1 reg.default_agent

/-- A rule matches when any of its keywords is a literal substring of the
lower-cased query. -/
def ruleMatches (ql : String) (r : RoutingRule) : Bool :=
  (r.keywords.getD []).any (fun kw => pyIn kw ql)

/-- The priority the routing loop reads from a rule (`rule.get('priority', 999)`). -/
def rulePriority (r : RoutingRule) : Nat := r.priority.getD 999

/-- Selection step: keep the incumbent unless the new rule's priority is strictly
smaller, so ties go to the first-declared rule. -/
def pickMinStep (acc : Option RoutingRule) (r : RoutingRule) : Option RoutingRule :=
  match acc with
  | none => some r
  | some b => if rulePriority r < rulePriority b then some r else some b

/-- Among a list of rules, the one with the numerically smallest priority, ties
broken in favor of the first-declared rule. -/
def pickFirstMin (rs : List RoutingRule) : Option RoutingRule :=
  rs.foldl pickMinStep none

/-- Routing as the specification words it: lower-case the query, keep the matching
rules, return the agent of the minimal-priority first-declared one, and fall back to
the default agent id when no rule matches.  Stated separately from `routeQuery` so
that the routing claim is a refinement between the two. -/
def specRoute (reg : Registry) (q : String) : Option String :=
  match pickFirstMin (reg.routing_rules.filter (ruleMatches (pyLower q))) with
  | some r => r.agent
  | none => reg.default_agent

/-- A well-formed routing rule names a non-empty target agent (so that Python's
`best_match or default` does not discard it). -/
def ruleWf (r : RoutingRule) : Prop := r.agent ≠ none ∧ r.agent ≠ some ""

instance (r : RoutingRule) : Decidable (ruleWf r) := by
  unfold ruleWf
  infer_instance

/-! ## Message envelope (`a2a_protocol.py`) -/

/-- `TaskRequest` (a2a_protocol.py lines 32-43). -/
structure TaskRequest where
  task_id : String
  description : String
  parameters : List (String × JVal)
  requester_id : String
  target_capability : Option String := none
  priority : String := "normal"

/-- `TaskResponse` (a2a_protocol.py lines 46-60).  `result` holds the delegate's
string payload or Python `None`. -/
structure TaskResponse where
  task_id : String
  status : String
  result : Option String := none
  error : Option String := none
  agent_id : Option String := none

/-- `AgentMessage` (a2a_protocol.py lines 8-29) before `__post_init__` runs:
`timestamp` and `message_id` may still be `None`. -/
structure AgentMessage where
  sender_id : String
  recipient_id : String
  message_type : String
  content : List (String × JVal)
  timestamp : Option String := none
  message_id : Option String := none

/-- `AgentMessage.__post_init__`: generate `timestamp`/`message_id` only when they
are `None`.  `datetime.utcnow().isoformat()` and `uuid.uuid4()` are nondeterministic,
so the freshly generated values are explicit parameters. -/
def agentMessagePostInit (genTimestamp genId : String) (m : AgentMessage) : AgentMessage :=
  let m1 := if m.timestamp = none then { m with timestamp := some genTimestamp } else m
  if m1.message_id = none then { m1 with message_id := some genId } else m1

/-- Constructing an `AgentMessage` (dataclass constructor followed by
`__post_init__`). -/
def mkAgentMessage (genTimestamp genId : String) (sender recipient mtype : String)
    (content : List (String × JVal)) (timestamp messageId : Option String) : AgentMessage :=
  agentMessagePostInit genTimestamp genId
    { sender_id := sender, recipient_id := recipient, message_type := mtype,
      content := content, timestamp := timestamp, message_id := messageId }

/-- `json.dumps` of an optional string field: Python `None` serializes as `null`. -/
def optStr : Option String → JVal
  | none => .null
  | some s => .str s

/-- `dataclasses.asdict(self)` as serialized by `AgentMessage.to_json`: the field
dictionary in declaration order. -/
def AgentMessage.asdict (m : AgentMessage) : JVal :=
  .obj [("sender_id", .str m.sender_id),
        ("recipient_id", .str m.recipient_id),
        ("message_type", .str m.message_type),
        ("content", .obj m.content),
        ("timestamp", optStr m.timestamp),
        ("message_id", optStr m.message_id)]

/-- `AgentMessage.to_json`: `json.dumps(asdict(self))`. -/
def AgentMessage.to_json (m : AgentMessage) : String := JVal.dumps (AgentMessage.asdict m)

/-- `AgentMessage.from_json` at the JSON-value level: `json.loads` of a `to_json`
string recovers exactly the dictionary `asdict` produced (`dumps`/`loads` compose to
the identity on JSON values), after which `cls(**data)` re-runs the dataclass
constructor, including `__post_init__` with fresh generator inputs. -/
def AgentMessage.fromJsonVal (genTimestamp genId : String) (v : JVal) : Option AgentMessage :=
  match jGet v "sender_id", jGet v "recipient_id", jGet v "message_type",
        jGet v "content" with
  | some (.str sender), some (.str recipient), some (.str mtype), some (.obj content) =>
    let timestamp := match jGet v "timestamp" with
      | some (.str t) => some t
      | _ => none
    let messageId := match jGet v "message_id" with
      | some (.str i) => some i
      | _ => none
    some (mkAgentMessage genTimestamp genId sender recipient mtype content timestamp messageId)
  | _, _, _, _ => none

/-! ## Supervisor (`supervisor_agent.py`) -/

/-- The outcome of one delegate as collected by
`asyncio.gather(..., return_exceptions=True)`: a raised exception is captured as a
value (`.error` with the exception's message), a returned string is `.ok`.  Note that
`SupervisorAgent.delegate_task` itself converts transport failures into strings, so
`.error` covers any exception escaping a delegate coroutine. -/
abbrev DelegateOutcome := Except String String

/-- The fixed `TaskRequest` for the GitHub delegate built by `route_and_execute`. -/
def githubTask (q : String) : TaskRequest :=
  { task_id := "github-task", description := q, parameters := [("query", .str q)],
    requester_id := "supervisor-001" }

/-- The fixed `TaskRequest` for the Bedrock delegate built by `route_and_execute`. -/
def bedrockTask (q : String) : TaskRequest :=
  { task_id := "bedrock-task", description := q, parameters := [("query", .str q)],
    requester_id := "supervisor-001" }

/-- `github_content` / `bedrock_content` in `collate_responses`:
`result if not isinstance(result, Exception) else f"Error: {result}"`. -/
def outcomeContent : DelegateOutcome → String
  | .ok s => s
  | .error e => "Error: " ++ e

/-- `SupervisorAgent._format_agent_result`: by the time it is applied inside
`collate_responses` its argument is already a string, which it returns unchanged. -/
def formatAgentResult (s : String) : String := s

/-- The deterministic fallback concatenation of `collate_responses`. -/
def simpleConcat (githubContent bedrockContent : String) : String :=
  "GitHub Agent: " ++ githubContent ++ "\n\nBedrock Agent: " ++ bedrockContent

/-- The collation prompt assembled by `collate_responses`.  The prompt wording is an
external collaborator (natural-language text, out of the verified scope); what matters
here is that it is a function of the query and both formatted agent results. -/
def collationPrompt (q githubContent bedrockContent : String) : String :=
  "You are a supervisor agent that intelligently combines responses from two " ++
  "specialized agents. User Query: " ++ q ++
  " GitHub Agent Result: " ++ formatAgentResult githubContent ++
  " Bedrock Agent Result: " ++ formatAgentResult bedrockContent ++
  " (instructions elided)"

/-- `SupervisorAgent.collate_responses` (supervisor_agent.py lines 216-254).
`client` is `self.bedrock_agent_client`: `none` when not initialized, otherwise an
opaque text-in/text-out call whose failure is `.error`. -/
def collateResponses (client : Option (String → Except String String)) (q : String)
    (githubResult bedrockResult : DelegateOutcome) : String :=
  match client with
  | none =>
    simpleConcat (outcomeContent githubResult) (outcomeContent bedrockResult)
  | some f =>
    let githubContent := outcomeContent githubResult
    let bedrockContent := outcomeContent bedrockResult
    match f (collationPrompt q githubContent bedrockContent) with
    | .ok r => r
    | .error e =>
      simpleConcat githubContent bedrockContent ++
        "\n\n(Note: Response collation failed: " ++ e ++ ")"

/-- `SupervisorAgent.route_and_execute` (supervisor_agent.py lines 182-214): build the
two fixed task requests, dispatch both delegates, collect both outcomes as values
(`asyncio.gather(..., return_exceptions=True)`), and collate.  The delegates are the
external agent calls, passed as functions; both are applied before collation, so one
delegate's failure never prevents collection of the other's result, and the function
is total (it never raises). -/
def routeAndExecute (client : Option (String → Except String String))
    (githubDelegate bedrockDelegate : TaskRequest → DelegateOutcome) (q : String) : String :=
  let githubResult := githubDelegate (githubTask q)
  let bedrockResult := bedrockDelegate (bedrockTask q)
  collateResponses client q githubResult bedrockResult

/-- The routing condition of `SupervisorAgent.handle_task_request`:
`if target_agent and self.registry.is_agent_available(target_agent)`. -/
def routedCond (reg : Registry) (description : String) : Bool :=
  match routeQuery reg description with
  | some target => !target.isEmpty && isAgentAvailable reg target
  | none => false

/-- `SupervisorAgent.handle_task_request` (supervisor_agent.py lines 106-128).
`delegateResult` is what `delegate_task` returned for the routed agent (a string, or
Python `None` when the remote answered with a null result); it is only consulted in
the routed branch. -/
def handleTaskRequest (reg : Registry) (task : TaskRequest)
    (delegateResult : Option String) : TaskResponse :=
  if routedCond reg task.description then
    { task_id := task.task_id,
      status := if pyTruthyStr delegateResult then "completed" else "failed",
      result := delegateResult,
      agent_id := some "supervisor-001" }
  else
    { task_id := task.task_id,
      status := "failed",
      error := some "No suitable agent found for task",
      agent_id := some "supervisor-001" }

/-- The TaskResponse invariant named by the data model:
status=failed ⇔ error is present and result is absent. -/
def responseInvariant (r : TaskResponse) : Prop :=
  r.status = "failed" ↔ (r.error ≠ none ∧ r.result = none)

instance (r : TaskResponse) : Decidable (responseInvariant r) := by
  unfold responseInvariant
  infer_instance

/-- One entry of the supervisor's turn-level conversation log. -/
structure ChatEntry where
  role : String
  content : String

/-- The conversation-state updates of `SupervisorAgent.query` (supervisor_agent.py
lines 265-274): append the user message, truncate to the last 10 entries when the
log exceeds 10, then append the assistant response (the response text itself comes
from `route_and_execute` and is a parameter here). -/
def queryConversationUpdate (conv : List ChatEntry) (userMsg response : String) :
    List ChatEntry :=
  let c1 := conv ++ [{ role := "user", content := userMsg }]
  let c2 := if c1.length > 10 then c1.drop (c1.length - 10) else c1
  c2 ++ [{ role := "assistant", content := response }]

/-! ## Remote tool session (`mcp_client.py`) -/

/-- One tool entry of `GitHubMCPClient.tools`: description, `inputSchema.properties`,
and the required-parameter list (`inputSchema.get("required", [])`). -/
structure ToolInfo where
  description : JVal
  parameters : List (String × JVal)
  required : List String

/-- The JSON-RPC requests `GitHubMCPClient` can put on the wire. -/
inductive MCPReq where
  | init
  | notifInitialized
  | toolsList
  | toolsCall (name : String) (args : List (String × JVal))

/-- An HTTP response as the client reads it: transport status code, the
`Mcp-Session-Id` response header, and the JSON body. -/
structure MCPResp where
  status : Nat
  mcpSessionId : Option String
  body : JVal

/-- The external MCP server, as a deterministic request-to-response function. -/
abbrev Transport := MCPReq → MCPResp

/-- The mutable state of `GitHubMCPClient`: whether `self.session` has been assigned
(an `httpx.AsyncClient`, assigned first thing in `initialize`), the session id header
if one was attached, and the tool table. -/
structure MCPClient where
  sessionActive : Bool := false
  sessionId : Option String := none
  tools : List (String × ToolInfo) := []

/-- Reading `inputSchema.get("required", [])`.  The source stores the value as-is;
it is consumed as a list of parameter names, so a non-list or non-string entry is
treated as a malformed tool entry (the exception path of the handshake loop). -/
def parseRequired : Option JVal → Option (List String)
  | none => some []
  | some (.arr es) =>
    es.mapM (fun e => match e with | .str s => some s | _ => none)
  | some _ => none

/-- Parsing one entry of the `tools/list` result: `tool["name"]`,
`tool["description"]`, `tool["inputSchema"]["properties"]`,
`tool["inputSchema"].get("required", [])`.  A missing key raises (`none`). -/
def parseTool (v : JVal) : Option (String × ToolInfo) :=
  match jGet v "name", jGet v "description", jGet v "inputSchema" with
  | some (.str name), some desc, some schema =>
    match jGet schema "properties" with
    | some (.obj props) =>
      match parseRequired (jGet schema "required") with
      | some req => some (name, { description := desc, parameters := props, required := req })
      | none => none
    | _ => none
  | _, _, _ => none

/-- The `for tool in data["result"]["tools"]` loop: tools parsed so far stay in the
table even when a later entry raises (the exception aborts the loop but the partial
`self.tools` writes persist); the Boolean reports whether the loop raised. -/
def insertTools : List JVal → List (String × ToolInfo) → List (String × ToolInfo) × Bool
  | [], acc => (acc, false)
  | v :: rest, acc =>
    match parseTool v with
    | some (name, info) => insertTools rest (pyDictSet acc name info)
    | none => (acc, true)

/-- `GitHubMCPClient.initialize` (mcp_client.py lines 38-117): assign the HTTP
session, send `initialize` (a non-200 status returns 0 immediately), attach the
`Mcp-Session-Id` header when present and non-empty, send the `initialized`
notification (outcome ignored), then `tools/list`; populate the tool table on a
well-formed result, and return the tool count, or 0 on any error or exception.
Returns the tool count, the client state, and the requests issued. -/
def mcpHandshake (t : Transport) : Nat × MCPClient × List MCPReq :=
  let c0 : MCPClient := { sessionActive := true }
  let r1 := t .init
  if r1.status != 200 then (0, c0, [.init])
  else
    let c1 := match r1.mcpSessionId with
      | some sid => if sid.isEmpty then c0 else { c0 with sessionId := some sid }
      | none => c0
    let _r2 := t .notifInitialized
    let r3 := t .toolsList
    let log := [MCPReq.init, MCPReq.notifInitialized, MCPReq.toolsList]
    if r3.status = 200 then
      match jGet r3.body "result" with
      | some res =>
        match jGet res "tools" with
        | some (.arr ts) =>
          let parsed := insertTools ts []
          let c2 := { c1 with tools := parsed.1 }
          if parsed.2 then (0, c2, log) else (parsed.1.length, c2, log)
        | _ => (0, c1, log)
      | none => (0, c1, log)
    else (0, c1, log)

/-- `GitHubMCPClient.call_tool` (mcp_client.py lines 133-160): raise
"MCP session not initialized" only when `self.session` was never assigned; otherwise
issue the `tools/call` RPC and translate the response.  The error string for a
protocol-level error renders the error object (`f"Tool error: {data['error']}"`,
modeled with the canonical serialization). -/
def mcpCallTool (c : MCPClient) (t : Transport) (name : String)
    (args : List (String × JVal)) : Except String JVal × List MCPReq :=
  if !c.sessionActive then (.error "MCP session not initialized", [])
  else
    let r := t (.toolsCall name args)
    if r.status != 200 then
      (.error ("Tool call failed: " ++ toString r.status), [.toolsCall name args])
    else
      match jGet r.body "result" with
      | some v => (.ok v, [.toolsCall name args])
      | none =>
        match jGet r.body "error" with
        | some e => (.error ("Tool error: " ++ JVal.dumps e), [.toolsCall name args])
        | none => (.ok r.body, [.toolsCall name args])

/-! ## GitHub agent tool execution (`git-mcp-agent/agent.py`) -/

/-- One entry of the plan's `tool_calls` list. -/
structure ToolCall where
  name : String
  arguments : List (String × JVal)

/-- The result dictionaries `execute_tools` appends to `results`, one constructor
per dictionary shape the source builds. -/
inductive ToolResult where
  | unavailable (tool : String)
  | missing (tool : String) (params : List String)
  | ok (tool : String) (args : List (String × JVal)) (result : JVal)
  | callError (tool : String) (args : List (String × JVal)) (err : String)

/-- The read-only tools eligible for caching (agent.py lines 174-177). -/
def cacheableTools : List String :=
  ["search_repositories", "search_code", "get_file_contents", "list_issues", "get_me"]

/-- The state `execute_tools` reads and writes: the MCP client and `_result_cache`. -/
structure AgentState where
  mcp : MCPClient
  resultCache : List (String × ToolResult)

/-- `missing_params = [p for p in tool_info["required"] if p not in arguments]`. -/
def missingParams (info : ToolInfo) (args : List (String × JVal)) : List String :=
  info.required.filter (fun p => !(pyLookup args p).isSome)

/-- One iteration of the `for tool_call in tool_calls` loop of
`GitHubAgent.execute_tools` (agent.py lines 165-230): cache probe for cacheable
tools, unknown-tool check, required-parameter check — all before the RPC — then the
`call_tool` RPC, with a successful cacheable result stored through the bounded
eviction step.  Returns the appended result, the updated state, and the transport
requests issued. -/
def executeOne (st : AgentState) (t : Transport) (tc : ToolCall) :
    ToolResult × AgentState × List MCPReq :=
  let cacheKey : Option String :=
    if tc.name ∈ cacheableTools then some (getCacheKey tc.name tc.arguments) else none
  let cached : Option ToolResult :=
    match cacheKey with
    | some k => pyLookup st.resultCache k
    | none => none
  match cached with
  | some r => (r, st, [])
  | none =>
    match pyLookup st.mcp.tools tc.name with
    | none => (.unavailable tc.name, st, [])
    | some info =>
      let missing := missingParams info tc.arguments
      if missing ≠ [] then (.missing tc.name missing, st, [])
      else
        let call := mcpCallTool st.mcp t tc.name tc.arguments
        match call.1 with
        | .ok v =>
          let toolResult := ToolResult.ok tc.name tc.arguments v
          let st1 :=
            match cacheKey with
            | some k => { st with resultCache := cacheStore st.resultCache k toolResult }
            | none => st
          (toolResult, st1, call.2)
        | .error e => (.callError tc.name tc.arguments e, st, call.2)

/-- `GitHubAgent.execute_tools` over the whole `tool_calls` list. -/
def executeTools (st : AgentState) (t : Transport) : List ToolCall →
    List ToolResult × AgentState × List MCPReq
  | [] => ([], st, [])
  | tc :: rest =>
    let step := executeOne st t tc
    let restRun := executeTools step.2.1 t rest
    (step.1 :: restRun.1, restRun.2.1, step.2.2 ++ restRun.2.2)

/-! ## Concrete scenario inputs used by witnesses and counterexamples -/

/-- A transport whose `initialize` reports a non-success status. -/
def badTransport : Transport := fun _ => { status := 500, mcpSessionId := none, body := .null }

/-- A transport that accepts every request (used where the claim forbids the request
from ever being sent). -/
def okTransport : Transport := fun _ => { status := 200, mcpSessionId := none, body := .null }

/-- Inserting 51 distinct keys into an initially empty result cache through the
store-and-evict step. -/
def insert51 : List (String × Nat) :=
  (List.range 51).foldl (fun c i => cacheStore c (toString i) i) []

/-- A 50-entry cache used to exercise the eviction threshold. -/
def fullCache50 : List (String × Nat) :=
  (List.range 50).map (fun i => ("k" ++ toString i, i))

/-- The registry of the routing scenario: one rule
`{keywords: ["issue"], agent: "github-agent", priority: 1}` and default
"bedrock-agent". -/
def scenarioRegistry : Registry :=
  { agents := [("github-agent", { id := some "github-agent-001" })],
    routing_rules := [{ keywords := some ["issue"], agent := some "github-agent",
                        priority := some 1 }],
    default_agent := some "bedrock-agent" }

/-- A tool table entry with one required parameter, for the validation scenario. -/
def searchCodeInfo : ToolInfo :=
  { description := .str "Search code", parameters := [("q", .obj [("type", .str "string")])],
    required := ["q"] }

/-- Agent state with `search_code` available and an empty result cache. -/
def scenarioAgentState : AgentState :=
  { mcp := { sessionActive := true, sessionId := none,
             tools := [("search_code", searchCodeInfo)] },
    resultCache := [] }

/-- A `search_code` call that omits the required parameter `q`. -/
def missingParamCall : ToolCall := { name := "search_code", arguments := [] }

/-! ## Helper lemmas about the Python-dict model -/

theorem pyLookup_append {A : Type} (l1 l2 : List (String × A)) (k : String) :
    pyLookup (l1 ++ l2) k =
      match pyLookup l1 k with
      | some v => some v
      | none => pyLookup l2 k := by
  induction l1 with
  | nil => simp [pyLookup]
  | cons p rest ih =>
    obtain ⟨k1, v1⟩ := p
    by_cases h : k1 = k <;> simp [pyLookup, h, ih]

theorem pyLookup_pyDictSet_self {A : Type} (c : List (String × A)) (k : String) (v : A) :
    pyLookup (pyDictSet c k v) k = some v := by
  induction c with
  | nil => simp [pyDictSet, pyLookup]
  | cons p rest ih =>
    obtain ⟨k1, v1⟩ := p
    by_cases h : k1 = k <;> simp [pyDictSet, pyLookup, h, ih]

theorem pyDictSet_of_lookup_none {A : Type} (c : List (String × A)) (k : String) (v : A)
    (h : pyLookup c k = none) : pyDictSet c k v = c ++ [(k, v)] := by
  induction c with
  | nil => simp [pyDictSet]
  | cons p rest ih =>
    obtain ⟨k1, v1⟩ := p
    by_cases hk : k1 = k
    · simp [pyLookup, hk] at h
    · simp [pyLookup, hk] at h
      simp [pyDictSet, hk, ih h]

theorem length_pyDictSet_of_lookup_some {A : Type} (c : List (String × A)) (k : String)
    (v w : A) (h : pyLookup c k = some w) : (pyDictSet c k v).length = c.length := by
  induction c with
  | nil => simp [pyLookup] at h
  | cons p rest ih =>
    obtain ⟨k1, v1⟩ := p
    by_cases hk : k1 = k
    · simp [pyDictSet, hk]
    · simp [pyLookup, hk] at h
      simp [pyDictSet, hk, ih h]

theorem pyLookup_drop_none {A : Type} (c : List (String × A)) (k : String) (n : Nat)
    (h : pyLookup c k = none) : pyLookup (c.drop n) k = none := by
  induction c generalizing n with
  | nil => simp [pyLookup]
  | cons p rest ih =>
    obtain ⟨k1, v1⟩ := p
    by_cases hk : k1 = k
    · simp [pyLookup, hk] at h
    · simp [pyLookup, hk] at h
      cases n with
      | zero => simp [pyLookup, hk, h]
      | succ m => simpa using ih m h

/-- Storing under a key and reading that key back always succeeds when the cache is
within its reachable size bound: a fresh key lands at the end, so a triggered
eviction (which removes the 10 oldest entries) never removes it, and an in-place
update never triggers eviction. -/
theorem cacheStore_lookup_self {A : Type} (c : List (String × A)) (k : String) (v : A)
    (hlen : c.length ≤ 50) : pyLookup (cacheStore c k v) k = some v := by
  unfold cacheStore
  cases h : pyLookup c k with
  | some w =>
    have hl := length_pyDictSet_of_lookup_some c k v w h
    have : ¬ ((pyDictSet c k v).length > 50) := by omega
    simp only [this, if_neg, ite_false]
    · exact pyLookup_pyDictSet_self c k v
  | none =>
    rw [pyDictSet_of_lookup_none c k v h]
    by_cases hl : (c ++ [(k, v)]).length > 50
    · have hc : 10 ≤ c.length := by simp at hl; omega
      simp only [hl, if_true, ite_true]
      rw [List.drop_append_eq_append_drop, Nat.sub_eq_zero_of_le hc]
      rw [List.drop_zero, pyLookup_append]
      rw [pyLookup_drop_none c k 10 h]
      simp [pyLookup]
    · simp only [hl, if_false, ite_false]
      rw [pyLookup_append, h]
      simp [pyLookup]

/-- Two argument maps that are equal as maps (same key-value pairs, keys unique,
possibly different insertion order) sort to the same canonical field list. -/
theorem sortPairs_eq_of_perm (l1 l2 : List (String × JVal)) (h : l1.Perm l2)
    (hnd : (l1.map Prod.fst).Nodup) : sortPairs l1 = sortPairs l2 := by
  haveI : IsAntisymm (String × JVal) (fun a b => a.1 < b.1) :=
    ⟨fun a b h1 h2 => absurd h1 (lt_asymm h2)⟩
  have hperm : (sortPairs l1).Perm (sortPairs l2) :=
    (List.perm_insertionSort keyLe l1).trans
      (h.trans (List.perm_insertionSort keyLe l2).symm)
  have hnd2 : (l2.map Prod.fst).Nodup := ((h.map Prod.fst).nodup_iff).mp hnd
  have sortedStrict : ∀ (l : List (String × JVal)), (l.map Prod.fst).Nodup →
      List.Sorted (fun a b : String × JVal => a.1 < b.1) (sortPairs l) := by
    intro l hl
    have hle : List.Sorted keyLe (sortPairs l) := List.sorted_insertionSort keyLe l
    have hndl : ((sortPairs l).map Prod.fst).Nodup :=
      (((List.perm_insertionSort keyLe l).map Prod.fst).nodup_iff).mpr hl
    have hne : List.Pairwise (fun a b : String × JVal => a.1 ≠ b.1) (sortPairs l) :=
      List.pairwise_map.mp hndl
    exact (hle.and hne).imp (fun hab => lt_of_le_of_ne hab.1 hab.2)
  exact List.eq_of_perm_of_sorted hperm (sortedStrict l1 hnd) (sortedStrict l2 hnd2)

set_option maxRecDepth 4000 in
/-- C4: the bounded result cache evicts in fixed batches.  Whenever an insertion
pushes the entry count above the fixed capacity of 50, the 10 entries oldest by
insertion order are removed in one batch; concretely, inserting 51 distinct keys
into an initially empty cache leaves exactly the 41 youngest entries, so at most 41
of the original entries are retrievable and the 10 oldest are gone. -/
theorem cache_evicts_ten_oldest_past_fifty (c : List (String × Nat)) (k : String) (v : Nat)
    (hfresh : pyLookup c k = none) (hlen : c.length = 50) :
    cacheStore c k v = (c ++ [(k, v)]).drop 10 ∧
    (cacheStore c k v).length = 41 ∧
    insert51.length = 41 ∧
    ((List.range 51).filter (fun i => (pyLookup insert51 (toString i)).isSome)).length = 41 ∧
    pyLookup insert51 (toString 0) = none ∧
    pyLookup insert51 (toString 10) = some 10 := by
  have hgt : (c ++ [(k, v)]).length > 50 := by simp [hlen]
  have heq : cacheStore c k v = (c ++ [(k, v)]).drop 10 := by
    unfold cacheStore
    rw [pyDictSet_of_lookup_none c k v hfresh, if_pos hgt]
  refine ⟨heq, ?_, by decide, by decide, by decide, by decide⟩
  rw [heq]
  simp [hlen]

set_option maxRecDepth 4000 in
/-- C4 witness: a concrete 50-entry cache plus one fresh key is evicted down to 41
entries. -/
theorem cache_evicts_ten_oldest_past_fifty_witness :
    pyLookup fullCache50 "fresh" = none ∧ fullCache50.length = 50 ∧
    (cacheStore fullCache50 "fresh" 99).length = 41 :=
  ⟨by decide, by decide,
    (cache_evicts_ten_oldest_past_fifty fullCache50 "fresh" 99 (by decide) (by decide)).2.1⟩

/-- C5: cache round-trip.  Storing a value under `(operation, arguments)` and then
looking the same pair up returns that value, and the cache key is a deterministic
hash of the operation plus the arguments serialized with sorted keys, so two
argument maps equal as maps but built in different insertion orders produce the
identical cache key (never a spurious miss).  Determinism is immediate:
`getCacheKey` is a pure function of its inputs. -/
theorem cache_roundtrip_and_canonical_key (c : List (String × Nat)) (op : String)
    (args args2 : List (String × JVal)) (v : Nat)
    (hlen : c.length ≤ 50) (hperm : args.Perm args2) (hnd : (args.map Prod.fst).Nodup) :
    cacheGet (cachePut c op args v) op args = some v ∧
    getCacheKey op args = getCacheKey op args2 := by
  constructor
  · exact cacheStore_lookup_self c (getCacheKey op args) v hlen
  · unfold getCacheKey md5Hex
    have hsort := sortPairs_eq_of_perm args args2 hperm hnd
    have hdump : JVal.dumps (JVal.obj args) = JVal.dumps (JVal.obj args2) := by
      simp only [JVal.dumps, hsort]
    rw [hdump]

/-- C5 witness: a concrete round trip through the cache, with the same argument map
written in two different key orders. -/
theorem cache_roundtrip_and_canonical_key_witness :
    ([] : List (String × Nat)).length ≤ 50 ∧
    List.Perm [("q", JVal.str "x"), ("page", JVal.num 1)]
      [("page", JVal.num 1), ("q", JVal.str "x")] ∧
    (([("q", JVal.str "x"), ("page", JVal.num 1)] : List (String × JVal)).map Prod.fst).Nodup ∧
    (cacheGet (cachePut ([] : List (String × Nat)) "search_code"
        [("q", JVal.str "x"), ("page", JVal.num 1)] 7) "search_code"
        [("q", JVal.str "x"), ("page", JVal.num 1)] = some 7 ∧
     getCacheKey "search_code" [("q", JVal.str "x"), ("page", JVal.num 1)] =
       getCacheKey "search_code" [("page", JVal.num 1), ("q", JVal.str "x")]) :=
  ⟨by decide, List.Perm.swap _ _ _, by decide,
    cache_roundtrip_and_canonical_key [] "search_code" _ _ 7 (by decide)
      (List.Perm.swap _ _ _) (by decide)⟩

/-- Invariant connecting the accumulator of `route_query`'s loop with the
first-minimal matching rule selected so far. -/
theorem routeFold_pickFirstMin (ql : String) :
    ∀ (rules : List RoutingRule) (acc : Option String × Option Nat)
      (pick : Option RoutingRule),
      (∀ r ∈ rules, ruleWf r) →
      ((acc = (none, none) ∧ pick = none) ∨
       (∃ b, pick = some b ∧ acc = (b.agent, some (rulePriority b)) ∧ ruleWf b)) →
      ((rules.foldl (routeStep ql) acc = (none, none) ∧
        (rules.filter (ruleMatches ql)).foldl pickMinStep pick = none) ∨
       (∃ b, (rules.filter (ruleMatches ql)).foldl pickMinStep pick = some b ∧
         rules.foldl (routeStep ql) acc = (b.agent, some (rulePriority b)) ∧ ruleWf b)) := by
  intro rules
  induction rules with
  | nil => intro acc pick _ hinv; simpa using hinv
  | cons r rest ih =>
    intro acc pick hwf hinv
    have hwfr : ruleWf r := hwf r (List.mem_cons_self r rest)
    have hwfrest : ∀ x ∈ rest, ruleWf x := fun x hx => hwf x (List.mem_cons_of_mem r hx)
    cases hm : ruleMatches ql r with
    | false =>
      have hstep : routeStep ql acc r = acc := by
        unfold routeStep
        unfold ruleMatches at hm
        simp [hm]
      have hfilter : (r :: rest).filter (ruleMatches ql) = rest.filter (ruleMatches ql) := by
        simp [List.filter_cons, hm]
      rw [List.foldl_cons, hstep, hfilter]
      exact ih acc pick hwfrest hinv
    | true =>
      have hfilter : (r :: rest).filter (ruleMatches ql) =
          r :: rest.filter (ruleMatches ql) := by
        simp [List.filter_cons, hm]
      rw [List.foldl_cons, hfilter, List.foldl_cons]
      rcases hinv with ⟨ha, hp⟩ | ⟨b, hp, ha, hwfb⟩
      · have hstep : routeStep ql acc r = (r.agent, some (rulePriority r)) := by
          unfold routeStep
          unfold ruleMatches at hm
          rw [ha]
          simp [hm, ltInfty, rulePriority]
        have hpick : pickMinStep pick r = some r := by rw [hp]; rfl
        rw [hstep, hpick]
        exact ih _ _ hwfrest (Or.inr ⟨r, rfl, rfl, hwfr⟩)
      · by_cases hlt : rulePriority r < rulePriority b
        · have hstep : routeStep ql acc r = (r.agent, some (rulePriority r)) := by
            unfold routeStep
            unfold ruleMatches at hm
            rw [ha]
            simp [hm, ltInfty, rulePriority]
            intro hcon
            exact absurd hlt (by simpa [rulePriority] using hcon)
          have hpick : pickMinStep pick r = some r := by
            rw [hp]
            simp [pickMinStep, hlt]
          rw [hstep, hpick]
          exact ih _ _ hwfrest (Or.inr ⟨r, rfl, rfl, hwfr⟩)
        · have hstep : routeStep ql acc r = acc := by
            unfold routeStep
            unfold ruleMatches at hm
            rw [ha]
            simp [hm, ltInfty, rulePriority]
            intro hcon
            exact absurd (by simpa [rulePriority] using hcon) hlt
          have hpick : pickMinStep pick r = some b := by
            rw [hp]
            simp [pickMinStep, hlt]
          rw [hstep, hpick]
          exact ih _ _ hwfrest (Or.inr ⟨b, rfl, ha, hwfb⟩)

/-- C6: `route_query` lower-cases the query, treats a rule as matching when any of
its keywords is a literal substring, and among matching rules returns the agent of
the rule with the numerically smallest priority, ties to the first-declared rule;
with no match it returns the default agent.  Stated as a refinement: for rules that
name a non-empty agent (so Python's `best_match or default` keeps them), the loop in
the source computes exactly the spec-worded `specRoute`; the scenario instances are
the spec's concrete example. -/
theorem route_query_matches_spec (reg : Registry) (q : String)
    (hwf : ∀ r ∈ reg.routing_rules, ruleWf r) :
    routeQuery reg q = specRoute reg q ∧
    routeQuery scenarioRegistry "any open issues?" = some "github-agent" ∧
    routeQuery scenarioRegistry "hello" = some "bedrock-agent" := by
  refine ⟨?_, by decide, by decide⟩
  have hinv := routeFold_pickFirstMin (pyLower q) reg.routing_rules (none, none) none hwf
    (Or.inl ⟨rfl, rfl⟩)
  unfold routeQuery specRoute pickFirstMin
  rcases hinv with ⟨ha, hp⟩ | ⟨b, hp, ha, hwfb⟩
  · simp only [ha, hp]
    rfl
  · simp only [ha, hp]
    obtain ⟨hne, hne'⟩ := hwfb
    cases hag : b.agent with
    | none => exact absurd hag hne
    | some a =>
      have haemp : a.isEmpty = false := by
        cases he : a.isEmpty
        · rfl
        · exact absurd (by rw [hag, (String.isEmpty_iff a).mp he]) hne'
      simp [pyOr, haemp]

/-- C6 witness: the refinement applied to the scenario registry, whose single rule
is well formed. -/
theorem route_query_matches_spec_witness :
    (∀ r ∈ scenarioRegistry.routing_rules, ruleWf r) ∧
    routeQuery scenarioRegistry "any open issues?" = specRoute scenarioRegistry "any open issues?" :=
  ⟨by decide, (route_query_matches_spec scenarioRegistry "any open issues?" (by decide)).1⟩

/-! ## Helper lemmas about substring containment in the fallback concatenation -/

theorem toList_append (a b : String) : (a ++ b).toList = a.toList ++ b.toList :=
  String.data_append a b

theorem pyIn_parts (n hay : String) (pre post : List Char)
    (h : hay.toList = pre ++ n.toList ++ post) : pyIn n hay = true := by
  have hinf := List.infix_append pre n.toList post
  rw [← h] at hinf
  exact decide_eq_true hinf

theorem pyIn_concat_github (g b tail : String) : pyIn g (simpleConcat g b ++ tail) = true := by
  apply pyIn_parts g _ ("GitHub Agent: ".toList) ("\n\nBedrock Agent: ".toList ++ b.toList ++ tail.toList)
  simp [simpleConcat, toList_append]

theorem pyIn_concat_bedrock (g b tail : String) : pyIn b (simpleConcat g b ++ tail) = true := by
  apply pyIn_parts b _ ("GitHub Agent: ".toList ++ g.toList ++ "\n\nBedrock Agent: ".toList)
    tail.toList
  simp [simpleConcat, toList_append]

theorem concat_tail_ne_empty (g b tail : String) : simpleConcat g b ++ tail ≠ "" := by
  intro he
  have hlen : (simpleConcat g b ++ tail).length = 0 := by rw [he]; rfl
  have h14 : ("GitHub Agent: " : String).length = 14 := rfl
  simp [simpleConcat, String.length_append, h14] at hlen

/-- C1 (amended): with both delegate outcomes collected as values, whenever one
delegate fails and the other succeeds and the response is produced by the
deterministic fallback path (no reconciliation client, or the reconciliation call
itself fails), `route_and_execute` returns a non-empty text containing the
successful delegate's content and an inline `Error:`-labeled indication of the
failure; the function is total (never raises) for every client and delegate, and
both delegations are evaluated before collation.  When the reconciliation call
succeeds, the returned text is the opaque reconciliation output, which need not
contain the delegate contents (see the counterexample). -/
theorem routeAndExecute_partial_failure_fallback
    (client : Option (String → Except String String))
    (githubDelegate bedrockDelegate : TaskRequest → DelegateOutcome)
    (q s e : String)
    (hfb : client = none ∨ ∃ f e2, client = some f ∧
      f (collationPrompt q (outcomeContent (githubDelegate (githubTask q)))
          (outcomeContent (bedrockDelegate (bedrockTask q)))) = Except.error e2)
    (hcase : (githubDelegate (githubTask q) = .error e ∧
                bedrockDelegate (bedrockTask q) = .ok s) ∨
             (githubDelegate (githubTask q) = .ok s ∧
                bedrockDelegate (bedrockTask q) = .error e)) :
    routeAndExecute client githubDelegate bedrockDelegate q ≠ "" ∧
    pyIn s (routeAndExecute client githubDelegate bedrockDelegate q) = true ∧
    pyIn ("Error: " ++ e) (routeAndExecute client githubDelegate bedrockDelegate q) = true := by
  have hres : ∃ tail, routeAndExecute client githubDelegate bedrockDelegate q =
      simpleConcat (outcomeContent (githubDelegate (githubTask q)))
        (outcomeContent (bedrockDelegate (bedrockTask q))) ++ tail := by
    rcases hfb with hnone | ⟨f, e2, hcl, herr⟩
    · refine ⟨"", ?_⟩
      rw [hnone]
      simp [routeAndExecute, collateResponses]
    · refine ⟨"\n\n(Note: Response collation failed: " ++ e2 ++ ")", ?_⟩
      rw [hcl]
      simp only [routeAndExecute, collateResponses, herr]
      simp [String.append_assoc]
  obtain ⟨tail, htail⟩ := hres
  rw [htail]
  rcases hcase with ⟨hg, hb⟩ | ⟨hg, hb⟩
  · rw [hg, hb]
    exact ⟨concat_tail_ne_empty _ _ _, pyIn_concat_bedrock _ _ _, pyIn_concat_github _ _ _⟩
  · rw [hg, hb]
    exact ⟨concat_tail_ne_empty _ _ _, pyIn_concat_github _ _ _, pyIn_concat_bedrock _ _ _⟩

/-- C1 witness: the fallback path at a concrete failing GitHub delegate and
successful Bedrock delegate, with no reconciliation client. -/
theorem routeAndExecute_partial_failure_fallback_witness :
    ((none : Option (String → Except String String)) = none ∨ ∃ f e2,
        (none : Option (String → Except String String)) = some f ∧
      f (collationPrompt "q" (outcomeContent ((fun _ => .error "boom") (githubTask "q")))
          (outcomeContent ((fun _ => .ok "fine") (bedrockTask "q")))) = Except.error e2) ∧
    ((fun (_ : TaskRequest) => (Except.error "boom" : DelegateOutcome)) (githubTask "q") =
        .error "boom" ∧
      (fun (_ : TaskRequest) => (Except.ok "fine" : DelegateOutcome)) (bedrockTask "q") =
        .ok "fine") ∧
    (routeAndExecute none (fun _ => .error "boom") (fun _ => .ok "fine") "q" ≠ "" ∧
     pyIn "fine" (routeAndExecute none (fun _ => .error "boom") (fun _ => .ok "fine") "q") = true ∧
     pyIn ("Error: " ++ "boom")
       (routeAndExecute none (fun _ => .error "boom") (fun _ => .ok "fine") "q") = true) :=
  ⟨Or.inl rfl, ⟨rfl, rfl⟩,
    routeAndExecute_partial_failure_fallback none (fun _ => .error "boom") (fun _ => .ok "fine")
      "q" "fine" "boom" (Or.inl rfl) (Or.inl ⟨rfl, rfl⟩)⟩

/-- C1 counterexample: when the reconciliation client succeeds, the turn's response
is the reconciliation model's opaque output; with a model that answers "ok" while
the GitHub delegate failed and the Bedrock delegate returned "fine", the response
contains neither the successful delegate's content nor any failure indication, so
the claim as stated fails on this path. -/
theorem routeAndExecute_llm_collation_drops_content :
    routeAndExecute (some (fun _ => .ok "ok")) (fun _ => .error "boom")
      (fun _ => .ok "fine") "q" = "ok" ∧
    pyIn "fine" "ok" = false ∧
    pyIn "Error: boom" "ok" = false :=
  ⟨rfl, by decide, by decide⟩

/-- C7 (amended): on a missing or malformed configuration source, `load_config`
initializes the registry empty without raising past the load boundary (the early
return and the `except` branch both leave a usable registry), but `default_agent` is
assigned only on a successful parse and so remains `None`; routing on such a
registry therefore returns no agent id at all (Python `None`) for every query,
rather than a configured default agent id. -/
theorem load_failure_empty_registry_routes_none (q : String) :
    (loadConfig .missing).agents = [] ∧ (loadConfig .missing).routing_rules = [] ∧
    (loadConfig .missing).default_agent = none ∧
    (loadConfig .malformed).agents = [] ∧ (loadConfig .malformed).routing_rules = [] ∧
    (loadConfig .malformed).default_agent = none ∧
    routeQuery (loadConfig .missing) q = none ∧
    routeQuery (loadConfig .malformed) q = none :=
  ⟨rfl, rfl, rfl, rfl, rfl, rfl, rfl, rfl⟩

/-- C7 counterexample: routing on a registry loaded from a missing (or malformed)
source yields `None` — not any configured default agent id — because the missing-file
early return and the exception handler never assign `default_agent`. -/
theorem load_missing_source_routes_to_none :
    (loadConfig .missing).default_agent = none ∧
    routeQuery (loadConfig .missing) "hello" = none ∧
    routeQuery (loadConfig .malformed) "hello" = none ∧
    (loadConfig (.parsed {})).default_agent = some "github-agent" :=
  ⟨rfl, rfl, rfl, rfl⟩

/-- C8 (amended): a response from the task-request path satisfies the invariant
(status=failed ⇔ error present ∧ result absent) exactly when the query was not
routed to an available agent or the routed delegate returned a truthy result; a
routed delegate returning a Python-falsy result (`None` or `""`) produces status
"failed" with `error` absent (and the falsy result attached), breaking the
biconditional. -/
theorem handle_task_request_invariant_iff (reg : Registry) (task : TaskRequest)
    (delegateResult : Option String) :
    responseInvariant (handleTaskRequest reg task delegateResult) ↔
      (routedCond reg task.description = false ∨ pyTruthyStr delegateResult = true) := by
  unfold handleTaskRequest
  cases hc : routedCond reg task.description
  · simp [responseInvariant]
  · cases hd : pyTruthyStr delegateResult
    · simp [responseInvariant, hd]
    · simp [responseInvariant, hd]

/-- C8 counterexample: a routed delegate that returns the Python-falsy string `""`
yields status "failed" with no error and a present result, violating the invariant
as stated. -/
theorem handle_task_request_invariant_counterexample :
    ¬ responseInvariant (handleTaskRequest scenarioRegistry
      { task_id := "t1", description := "any open issues?", parameters := [],
        requester_id := "requester" } (some "")) := by
  decide

/-- C9 (amended): the conversation log is append-only within a turn and is truncated
to the most recent 10 entries at the START of each turn — after appending the user
message, before computing the response — so a completed `query()` leaves
min(previous+1, 10) + 1 entries: at most 11, not 10, the most recent ones in
order. -/
theorem conversation_window_after_query (conv : List ChatEntry) (u r : String) :
    (queryConversationUpdate conv u r).length = min (conv.length + 1) 10 + 1 ∧
    (queryConversationUpdate conv u r) <:+
      (conv ++ [ChatEntry.mk "user" u, ChatEntry.mk "assistant" r]) := by
  have heq : queryConversationUpdate conv u r =
      (if (conv ++ [ChatEntry.mk "user" u]).length > 10 then
        (conv ++ [ChatEntry.mk "user" u]).drop ((conv ++ [ChatEntry.mk "user" u]).length - 10)
      else conv ++ [ChatEntry.mk "user" u]) ++ [ChatEntry.mk "assistant" r] := rfl
  have h2 : conv ++ [ChatEntry.mk "user" u, ChatEntry.mk "assistant" r] =
      (conv ++ [ChatEntry.mk "user" u]) ++ [ChatEntry.mk "assistant" r] := by simp
  constructor
  · rw [heq]
    by_cases h : (conv ++ [ChatEntry.mk "user" u]).length > 10
    · simp only [h, ite_true]
      simp at h ⊢
      omega
    · simp only [h, ite_false]
      simp at h ⊢
      omega
  · rw [heq, h2]
    have hsuf : (if (conv ++ [ChatEntry.mk "user" u]).length > 10 then
        (conv ++ [ChatEntry.mk "user" u]).drop ((conv ++ [ChatEntry.mk "user" u]).length - 10)
      else conv ++ [ChatEntry.mk "user" u]) <:+ (conv ++ [ChatEntry.mk "user" u]) := by
      by_cases h : (conv ++ [ChatEntry.mk "user" u]).length > 10
      · simp only [h, ite_true]
        exact List.drop_suffix _ _
      · simp only [h, ite_false]
        exact List.suffix_refl _
    obtain ⟨t, ht⟩ := hsuf
    exact ⟨t, by rw [← List.append_assoc, ht]⟩

/-- C9 counterexample: after the 6th completed query on an initially empty log, the
conversation holds 11 entries, exceeding the claimed bound of 10. -/
theorem conversation_exceeds_ten_counterexample :
    ((List.range 6).foldl
      (fun c i => queryConversationUpdate c ("user" ++ toString i) ("answer" ++ toString i))
      []).length = 11 := by
  decide

/-- C10: AgentMessage JSON round-trip.  For a message whose `timestamp` and
`message_id` were populated at construction (`__post_init__` fills any `None`),
`from_json(to_json(m))` — modeled at the JSON-value level, since
`json.loads(json.dumps(v))` is the identity on JSON values — reconstructs the
message field-for-field, preserving the original `message_id` and `timestamp`
instead of generating fresh ones (the second constructor's generator inputs
`genTs2`/`genId2` are arbitrary and do not appear in the result). -/
theorem agent_message_json_roundtrip
    (genTs genId genTs2 genId2 sender recipient mtype : String)
    (content : List (String × JVal)) (ts mid : Option String) :
    AgentMessage.fromJsonVal genTs2 genId2
      (AgentMessage.asdict (mkAgentMessage genTs genId sender recipient mtype content ts mid)) =
      some (mkAgentMessage genTs genId sender recipient mtype content ts mid) := by
  cases ts <;> cases mid <;> rfl

/-- With the HTTP session object assigned, `call_tool` always issues the
`tools/call` request, whatever the transport answers. -/
theorem mcpCallTool_issues_rpc (c : MCPClient) (t : Transport) (name : String)
    (args : List (String × JVal)) (h : c.sessionActive = true) :
    (mcpCallTool c t name args).2 = [MCPReq.toolsCall name args] := by
  unfold mcpCallTool
  rw [h]
  simp only [Bool.not_true, Bool.false_eq_true, if_false]
  split
  · rfl
  · split
    · rfl
    · split
      · rfl
      · rfl

/-- C2 (amended): if `initialize` reports a non-success transport status, the
session ends with zero tools in its tool table and the call reports 0; however,
`call_tool` raises "MCP session not initialized" only when `initialize` was never
invoked at all (`self.session` unset) — after a failed handshake the session object
is already assigned, so every subsequent `call_tool` still issues the `tools/call`
RPC over the network instead of failing with SessionNotReady. -/
theorem mcp_handshake_failure_zero_tools (t : Transport)
    (h : (t .init).status ≠ 200) :
    (mcpHandshake t).1 = 0 ∧
    (mcpHandshake t).2.1.tools = [] ∧
    (mcpHandshake t).2.1.sessionActive = true ∧
    (∀ name args, (mcpCallTool (mcpHandshake t).2.1 t name args).2 =
      [MCPReq.toolsCall name args]) ∧
    (∀ (c : MCPClient) name args, c.sessionActive = false →
      mcpCallTool c t name args =
        (Except.error "MCP session not initialized", ([] : List MCPReq))) := by
  have hb : ((t .init).status != 200) = true := by simpa using h
  have hmain : mcpHandshake t =
      (0, { sessionActive := true, sessionId := none, tools := [] }, [MCPReq.init]) := by
    unfold mcpHandshake
    simp only [hb, if_true]
  refine ⟨by rw [hmain], by rw [hmain], by rw [hmain], ?_, ?_⟩
  · intro name args
    exact mcpCallTool_issues_rpc _ t name args (by rw [hmain])
  · intro c name args hc
    unfold mcpCallTool
    rw [hc]
    rfl

/-- C2 witness: the failed-handshake facts at a concrete always-500 transport. -/
theorem mcp_handshake_failure_zero_tools_witness :
    (badTransport .init).status ≠ 200 ∧
    (mcpHandshake badTransport).1 = 0 ∧
    (mcpHandshake badTransport).2.1.tools = [] :=
  ⟨by decide, (mcp_handshake_failure_zero_tools badTransport (by decide)).1,
   (mcp_handshake_failure_zero_tools badTransport (by decide)).2.1⟩

/-- C2 counterexample: after a failed `initialize` handshake over a concrete
transport, the tool table is empty, yet `call_tool` does reach the network — it
issues the `tools/call` request and fails with the transport error, not with
"MCP session not initialized". -/
theorem mcp_calltool_after_failed_handshake_hits_network :
    (mcpHandshake badTransport).2.1.tools = [] ∧
    (mcpCallTool (mcpHandshake badTransport).2.1 badTransport "search_code" []).2 =
      [MCPReq.toolsCall "search_code" []] ∧
    (mcpCallTool (mcpHandshake badTransport).2.1 badTransport "search_code" []).1 =
      Except.error "Tool call failed: 500" :=
  ⟨rfl, rfl, rfl⟩

/-- C3: a tool invocation whose argument map lacks a required parameter returns the
missing-parameters error listing exactly the absent parameters, leaves the state
(including the result cache) unchanged, and issues no RPC at all — the request log
is empty, so the transport call count stays unchanged; the check runs before any
network activity. -/
theorem missing_params_validated_before_rpc (st : AgentState) (t : Transport)
    (tc : ToolCall) (info : ToolInfo)
    (htool : pyLookup st.mcp.tools tc.name = some info)
    (hmiss : missingParams info tc.arguments ≠ [])
    (hcache : tc.name ∈ cacheableTools →
      pyLookup st.resultCache (getCacheKey tc.name tc.arguments) = none) :
    executeOne st t tc =
      (ToolResult.missing tc.name (missingParams info tc.arguments), st, ([] : List MCPReq)) := by
  by_cases hc : tc.name ∈ cacheableTools
  · simp only [executeOne]
    rw [if_pos hc]
    simp only [hcache hc, htool]
    rw [if_pos hmiss]
  · simp only [executeOne]
    rw [if_neg hc]
    simp only [htool]
    rw [if_pos hmiss]

/-- C3 witness: a cacheable `search_code` call with an empty argument map, against a
state where `search_code` requires `q`; the invocation reports the missing parameter
and the request log is empty. -/
theorem missing_params_validated_before_rpc_witness :
    pyLookup scenarioAgentState.mcp.tools missingParamCall.name = some searchCodeInfo ∧
    missingParams searchCodeInfo missingParamCall.arguments ≠ [] ∧
    executeOne scenarioAgentState okTransport missingParamCall =
      (ToolResult.missing missingParamCall.name
        (missingParams searchCodeInfo missingParamCall.arguments),
       scenarioAgentState, ([] : List MCPReq)) :=
  ⟨rfl, by decide,
    missing_params_validated_before_rpc scenarioAgentState okTransport missingParamCall
      searchCodeInfo rfl (by decide) (fun _ => rfl)⟩
